import Mathlib

/-!
Shallow embedding of the SmartPhasorToolBox persistor pipeline
(src/modules/persistor/main.py, src/modules/persistor/database.py,
src/status_manager.py).

Modelling conventions:
  * Redis field maps arrive with decode_responses=True, so every field value
    is a string; a raw entry is an association list `List (String × String)`
    whose keys are unique (Python dict), looked up with `List.lookup`.
  * Destination cells are `Cell`: `null` (Python None / SQL NULL), `raw v`
    (the entry field value passed through unchanged), or `time ts` (the
    datetime produced by `datetime.fromtimestamp(float(ts))`).
  * Python `float(s)` acceptance is modelled by `pyFloatParses`, restricted
    to optionally signed finite decimal literals (no exponent / inf / nan);
    this covers exactly the distinctions the persistor makes: a parseable
    decimal string, an unparseable string (ValueError), a missing key
    (KeyError, which the source does NOT catch).
  * Database success/failure of one insert-plus-commit attempt (including
    the reconnect check) is collapsed into a single boolean oracle `dbOk`,
    since flush_buffer_to_db treats every exception in that block alike.
-/

namespace SmartPhasor

/-- Destination cell value: SQL NULL, a pass-through field value, or the
parsed timestamp column. -/
inductive Cell where
  | null : Cell
  | raw : String → Cell
  | time : String → Cell
deriving DecidableEq, Repr

/-- A raw Redis entry: flat field map with string values
(decode_responses=True). -/
abbrev Msg := List (String × String)

/-- A mapped row: one cell per column of TABLE_COLUMNS, in order. -/
abbrev Row := List Cell

/-- TABLE_COLUMNS from src/modules/persistor/main.py lines 47-58: the column
order used both for every mapped row tuple and for the INSERT statement. -/
def TABLE_COLUMNS : List String :=
  [ "time", "pmu_id", "stat_word", "freq", "rocof",
    "phasor_0_mag", "phasor_0_ang_deg", "phasor_1_mag", "phasor_1_ang_deg",
    "phasor_2_mag", "phasor_2_ang_deg", "phasor_3_mag", "phasor_3_ang_deg",
    "phasor_4_mag", "phasor_4_ang_deg", "phasor_5_mag", "phasor_5_ang_deg",
    "phasor_6_mag", "phasor_6_ang_deg", "phasor_7_mag", "phasor_7_ang_deg",
    "phasor_8_mag", "phasor_8_ang_deg", "phasor_9_mag", "phasor_9_ang_deg",
    "phasor_10_mag", "phasor_10_ang_deg", "phasor_11_mag", "phasor_11_ang_deg",
    "analog_0", "analog_1", "analog_2", "analog_3",
    "analog_4", "analog_5", "analog_6", "analog_7",
    "digital_0", "digital_1" ]

/-- Column order of the destination table phasor_data as declared by the
CREATE TABLE statement in src/modules/persistor/database.py lines 83-108,
transcribed top to bottom, left to right. -/
def phasor_data_ddl_columns : List String :=
  [ "time", "pmu_id", "stat_word", "freq", "rocof",
    "phasor_0_mag", "phasor_0_ang_deg",
    "phasor_1_mag", "phasor_1_ang_deg",
    "phasor_2_mag", "phasor_2_ang_deg",
    "phasor_3_mag", "phasor_3_ang_deg",
    "phasor_4_mag", "phasor_4_ang_deg",
    "phasor_5_mag", "phasor_5_ang_deg",
    "phasor_6_mag", "phasor_6_ang_deg",
    "phasor_7_mag", "phasor_7_ang_deg",
    "phasor_8_mag", "phasor_8_ang_deg",
    "phasor_9_mag", "phasor_9_ang_deg",
    "phasor_10_mag", "phasor_10_ang_deg",
    "phasor_11_mag", "phasor_11_ang_deg",
    "analog_0", "analog_1",
    "analog_2", "analog_3",
    "analog_4", "analog_5",
    "analog_6", "analog_7",
    "digital_0", "digital_1" ]

/-- Whitespace characters stripped by Python float(). -/
def isPyWhitespace (c : Char) : Bool :=
  c = ' ' || c = '\t' || c = '\n' || c = '\r'

/-- Strip whitespace from both ends of a character list. -/
def trimChars (l : List Char) : List Char :=
  ((l.dropWhile isPyWhitespace).reverse.dropWhile isPyWhitespace).reverse

/-- Split a character list on a separator character. -/
def splitOnChar (sep : Char) : List Char → List (List Char)
  | [] => [[]]
  | x :: xs =>
      let r := splitOnChar sep xs
      if x = sep then [] :: r
      else
        match r with
        | [] => [[x]]
        | h :: t => (x :: h) :: t

/-- Modelled acceptance of Python float(s) restricted to finite decimal
literals: optional surrounding whitespace, optional sign, then digits with
at most one decimal point and at least one digit overall. -/
def pyFloatParses (s : String) : Bool :=
  let t := trimChars s.data
  let t := match t with
    | c :: rest => if c = '+' || c = '-' then rest else t
    | [] => t
  match splitOnChar '.' t with
  | [a] => !a.isEmpty && a.all Char.isDigit
  | [a, b] =>
      (!a.isEmpty || !b.isEmpty) && a.all Char.isDigit && b.all Char.isDigit
  | _ => false

/-- Python exception escaping a modelled function. -/
inductive PyError where
  | keyError : String → PyError
deriving DecidableEq, Repr

/-- format_row_from_redis (main.py lines 63-80). Subscripts msg_data at the
key ts — a KeyError when that field is absent is NOT caught (the except
clause lists only TypeError and ValueError, which here correspond to an
unparseable string value, producing a None time cell). Then maps every
column of TABLE_COLUMNS via msg_data.get(col), where the time key has just
been overwritten with the parsed datetime (or None). -/
def format_row_from_redis (msg : Msg) : Except PyError Row :=
  match msg.lookup "ts" with
  | none => .error (.keyError "ts")
  | some ts =>
      .ok (TABLE_COLUMNS.map fun col =>
        if col = "time" then
          (if pyFloatParses ts then Cell.time ts else Cell.null)
        else
          match msg.lookup col with
          | none => Cell.null
          | some v => Cell.raw v)

/-- Result of one flush_buffer_to_db call: the buffer afterwards, the
returned boolean, the rows committed by this call, and whether the database
was touched at all. -/
structure FlushResult where
  buffer : List Row
  ok : Bool
  committed : List Row
  dbTouched : Bool
deriving DecidableEq, Repr

/-- flush_buffer_to_db (main.py lines 83-114). Empty buffer: returns True
immediately, no database interaction. Otherwise one bulk insert plus commit,
modelled by the oracle dbOk: on success the whole buffer is committed and
cleared; on any exception the transaction is rolled back, the buffer is left
exactly as it was, and False is returned. -/
def flush_buffer_to_db (buffer : List Row) (dbOk : Bool) : FlushResult :=
  if buffer.isEmpty then ⟨buffer, true, [], false⟩
  else if dbOk then ⟨[], true, buffer, true⟩
  else ⟨buffer, false, [], true⟩

/-- Batch size threshold from main.py line 36 (BATCH_SIZE = 500). -/
def BATCH_SIZE : Nat := 500

/-- The ack dictionary acks_to_send: stream name to list of entry ids, in
insertion order (a Python dict of lists). -/
abbrev AckMap := List (String × List String)

/-- One xreadgroup response: per stream, an ordered list of
(entry id, field map) pairs. An empty list models the block-timeout case
(`if not response`). -/
abbrev Response := List (String × List (String × Msg))

/-- State of the two pipeline globals mutated by the loop body:
data_buffer and acks_to_send (main.py lines 42-43). -/
structure PState where
  data_buffer : List Row
  acks_to_send : AckMap
deriving DecidableEq, Repr

/-- Appending msg_id under stream_name in acks_to_send (main.py lines
217-219): create the key with an empty list if absent, then append. -/
def appendAck : AckMap → String → String → AckMap
  | [], stream, id => [(stream, [id])]
  | (s, ids) :: rest, stream, id =>
      if s = stream then (s, ids ++ [id]) :: rest
      else (s, ids) :: appendAck rest stream id

/-- True when the first cell of a mapped row (the time column) is not None
(the subscript-zero check of main.py line 213). -/
def rowTimeOk : Row → Bool
  | [] => false
  | c :: _ => match c with
    | Cell.null => false
    | _ => true

/-- The inner message loop of step 6 (main.py lines 210-219) over one
stream's messages: format each entry, append the row to data_buffer when
its time cell is valid, then record the id in acks_to_send. A KeyError
escaping format_row_from_redis aborts the loop, leaving the partial global
state (carried by the error value). -/
def processMsgs (stream : String) (st : PState) :
    List (String × Msg) → Except PState PState
  | [] => .ok st
  | (id, msg) :: rest =>
      match format_row_from_redis msg with
      | .error _ => .error st
      | .ok row =>
          processMsgs stream
            { data_buffer :=
                if rowTimeOk row then st.data_buffer ++ [row] else st.data_buffer,
              acks_to_send := appendAck st.acks_to_send stream id } rest

/-- The outer stream loop of step 6 (main.py line 209). -/
def processStreams (st : PState) : Response → Except PState PState
  | [] => .ok st
  | (stream, msgs) :: rest =>
      match processMsgs stream st msgs with
      | .error st' => .error st'
      | .ok st' => processStreams st' rest

/-- Everything observable about one iteration of the while loop body from
the xreadgroup response onward (main.py lines 201-228). -/
structure CycleOut where
  state : PState
  acksSent : AckMap
  committed : List Row
  flushCalled : Bool
  flushResult : Option Bool
  errored : Bool
deriving DecidableEq, Repr

/-- One pipeline cycle from the read response onward (main.py lines
201-228): an empty response (timeout) flushes the residual buffer and sends
no acks; otherwise acks_to_send is reset to the empty dict, the messages
are processed, and only when the buffer has reached BATCH_SIZE is a flush
attempted, with xack issued for acks_to_send exactly when that flush
returned True. An uncaught mapper exception lands in the outer handler:
no flush, no acks, partial globals kept. -/
def runCycle (st : PState) (resp : Response) (dbOk : Bool) : CycleOut :=
  if resp.isEmpty then
    let f := flush_buffer_to_db st.data_buffer dbOk
    ⟨⟨f.buffer, st.acks_to_send⟩, [], f.committed, true, some f.ok, false⟩
  else
    match processStreams ⟨st.data_buffer, []⟩ resp with
    | .error st' => ⟨st', [], [], false, none, true⟩
    | .ok st' =>
        if BATCH_SIZE ≤ st'.data_buffer.length then
          let f := flush_buffer_to_db st'.data_buffer dbOk
          if f.ok then
            ⟨⟨f.buffer, st'.acks_to_send⟩, st'.acks_to_send, f.committed,
              true, some true, false⟩
          else
            ⟨⟨f.buffer, st'.acks_to_send⟩, [], [], true, some false, false⟩
        else ⟨st', [], [], false, none, false⟩

/-- A finite run of consecutive cycles: returns the final state, the ack
maps actually sent per cycle, and all rows committed over the run. -/
def runTrace (st : PState) : List (Response × Bool) →
    PState × List AckMap × List Row
  | [] => (st, [], [])
  | (resp, dbOk) :: rest =>
      let out := runCycle st resp dbOk
      let (fin, acks, comm) := runTrace out.state rest
      (fin, out.acksSent :: acks, out.committed ++ comm)

/-- The (stream, entry id) pairs of a response, in processing order. -/
def respPairs (resp : Response) : List (String × String) :=
  resp.flatMap fun p => p.2.map fun q => (p.1, q.1)

/-- Folding appendAck over a list of (stream, id) pairs. -/
def buildAcks (acks : AckMap) (pairs : List (String × String)) : AckMap :=
  pairs.foldl (fun a p => appendAck a p.1 p.2) acks

/-- True when every message of the response carries a ts field, so that no
KeyError escapes the mapper. -/
def allHaveTs (resp : Response) : Bool :=
  resp.all fun p => p.2.all fun q => (q.2.lookup "ts").isSome

/-- The rows a list of messages contributes to data_buffer: formatted rows
whose time cell parsed. -/
def validRowsMsgs (msgs : List (String × Msg)) : List Row :=
  msgs.filterMap fun q =>
    match format_row_from_redis q.2 with
    | .error _ => none
    | .ok row => if rowTimeOk row then some row else none

/-- The rows a whole response contributes to data_buffer. -/
def validRows (resp : Response) : List Row :=
  resp.flatMap fun p => validRowsMsgs p.2

/-- Outcome of one xgroup_create call (main.py line 134): the group was
created, the ResponseError text contains "name already exists" (expected
steady state, swallowed), or some other error (re-raised by line 140). -/
inductive XGroupResult where
  | created : XGroupResult
  | alreadyExists : XGroupResult
  | err : String → XGroupResult
deriving DecidableEq, Repr

/-- The per-stream body of discover_and_setup_groups (main.py lines
130-151). A non-already-exists group-create error is re-raised and
propagates out of the whole loop; the register_pmu step never raises (its
body catches every exception, and the surrounding pmu-id parse catches
IndexError and ValueError), so it does not affect the returned dict. -/
def setupLoop (gc : String → XGroupResult) :
    List String → Except String (List (String × String))
  | [] => .ok []
  | s :: rest =>
      match gc s with
      | .err e => .error e
      | _ =>
          match setupLoop gc rest with
          | .ok d => .ok ((s, ">") :: d)
          | .error e => .error e

/-- discover_and_setup_groups (main.py lines 117-158), abstracted over the
discovered stream names (r.keys) and a per-stream group-create outcome.
If no stream matches, returns the empty dict at line 128. Any exception
escaping the stream loop is caught by the outer handler at line 156, which
logs and returns the empty dict. -/
def discover_and_setup_groups (streams : List String)
    (gc : String → XGroupResult) : List (String × String) :=
  if streams.isEmpty then []
  else
    match setupLoop gc streams with
    | .ok d => d
    | .error _ => []

/-- Metadata of one consumer group as returned by XINFO GROUPS
(status_manager.py lines 138-148). -/
structure GroupInfo where
  name : String
  lag : Nat
  pending : Nat
  consumers : Nat
deriving DecidableEq, Repr

/-- The Redis state visible to the status manager: keys, each a stream
carrying its list of consumer groups. -/
abbrev RedisDB := List (String × List GroupInfo)

/-- Prefix test on character lists. -/
def charListPrefix : List Char → List Char → Bool
  | [], _ => true
  | _ :: _, [] => false
  | a :: as, b :: bs => a = b && charListPrefix as bs

/-- The glob pmu_data_stream:* of STREAM_KEY_PATTERN: a key matches when it
begins with the literal part of the pattern. -/
def matchesStreamPattern (k : String) : Bool :=
  charListPrefix "pmu_data_stream:".data k.data

/-- KEYS pmu_data_stream:* — a read-only command: returns the matching key
names and the unchanged state. -/
def keysCmd (db : RedisDB) : List String × RedisDB :=
  ((db.map Prod.fst).filter matchesStreamPattern, db)

/-- XINFO GROUPS — a read-only command: the group list of an existing
stream, or a ResponseError for a missing key; the state is unchanged. -/
def xinfoGroupsCmd (db : RedisDB) (key : String) :
    Except String (List GroupInfo) × RedisDB :=
  (match db.lookup key with
   | some gs => .ok gs
   | none => .error "ERR no such key", db)

def PERSISTOR_GROUP_NAME : String := "persistor_group"

/-- Per-stream status value of get_persistor_status. -/
inductive StreamStatus where
  | monitorado : Nat → Nat → Nat → StreamStatus
  | aguardando : StreamStatus
  | semGrupo : StreamStatus
deriving DecidableEq, Repr

/-- Overall return value of get_persistor_status. -/
inductive PersistorStatus where
  | noStreams : PersistorStatus
  | perStream : List (String × StreamStatus) → PersistorStatus
deriving DecidableEq, Repr

/-- The per-stream body of get_persistor_status (status_manager.py lines
135-157): XINFO GROUPS, then the first group named persistor_group yields
MONITORADO with that group's lag, pending and consumers taken straight from
the metadata; no such group yields AGUARDANDO; a ResponseError (stream key
gone) yields SEM GRUPO. -/
def streamStatusStep (db : RedisDB) (stream : String) :
    StreamStatus × RedisDB :=
  let r := xinfoGroupsCmd db stream
  (match r.1 with
   | .ok gs =>
       match gs.find? (fun g => g.name == PERSISTOR_GROUP_NAME) with
       | some g => StreamStatus.monitorado g.lag g.pending g.consumers
       | none => StreamStatus.aguardando
   | .error _ => StreamStatus.semGrupo, r.2)

/-- get_persistor_status (status_manager.py lines 118-159): list the pmu
streams; none means the "Nenhum stream para monitorar" payload; otherwise
build the per-stream status dict, threading the Redis state through every
command so that any mutation would be visible in the returned state. -/
def get_persistor_status (db : RedisDB) : PersistorStatus × RedisDB :=
  let ks := keysCmd db
  if ks.1.isEmpty then (.noStreams, ks.2)
  else
    let res := ks.1.foldl
      (fun acc stream =>
        let s := streamStatusStep acc.2 stream
        (acc.1 ++ [(stream, s.1)], s.2))
      (([] : List (String × StreamStatus)), ks.2)
    (.perStream res.1, res.2)

/-- Names bound at module level in src/modules/persistor/database.py: its
imports (lines 14-17) and its own top-level definitions. -/
def database_py_module_names : List String :=
  ["psycopg2", "os", "logging", "time", "logger",
   "get_db_connection", "setup_database", "register_pmu"]

/-- Local names bound inside register_pmu before the INSERT executes. -/
def register_pmu_local_names : List String :=
  ["pmu_id", "conn", "cursor"]

/-- A representative slice of the Python builtin namespace; what matters is
that it does not contain "datetime" (a module one must import, which
database.py never does). -/
def python_builtins : List String :=
  ["int", "str", "float", "len", "range", "Exception", "bool", "dict",
   "list", "tuple", "set", "open", "repr", "abs", "min", "max"]

/-- Python name resolution as seen from inside register_pmu: locals, then
module globals, then builtins. -/
def nameResolvesInRegisterPmu (n : String) : Bool :=
  register_pmu_local_names.contains n || database_py_module_names.contains n
    || python_builtins.contains n

/-- What a register_pmu call leaves behind: whether the INSERT into
pmu_devices executed, and whether an exception escaped to the caller. -/
structure RegisterResult where
  inserted : Bool
  raised : Bool
deriving DecidableEq, Repr

/-- register_pmu (database.py lines 139-164). The whole body sits in
try/except Exception. get_db_connection may itself raise (modelled by the
connectOk oracle); otherwise the INSERT's parameter tuple evaluates
f-strings referencing the name datetime, which must resolve before the
insert can execute — an unresolvable name raises NameError, caught by the
same except clause. Either way the function logs and returns normally. -/
def register_pmu (connectOk : Bool) (_pmuId : Nat) : RegisterResult :=
  let body : Except String Bool :=
    if !connectOk then .error "Falha na conexao com o banco de dados"
    else if nameResolvesInRegisterPmu "datetime" then .ok true
    else .error "NameError: name datetime is not defined"
  match body with
  | .ok ins => ⟨ins, false⟩
  | .error _ => ⟨false, false⟩

/-- A sample committed row used by concrete instantiations (39 cells, one
per TABLE_COLUMNS entry). -/
def sampleRow : Row := List.replicate 39 (Cell.raw "0")

lemma buildAcks_cons (a : AckMap) (p : String × String)
    (ps : List (String × String)) :
    buildAcks a (p :: ps) = buildAcks (appendAck a p.1 p.2) ps := rfl

lemma buildAcks_append (a : AckMap) (ps qs : List (String × String)) :
    buildAcks a (ps ++ qs) = buildAcks (buildAcks a ps) qs := by
  simp [buildAcks, List.foldl_append]

lemma processMsgs_ok (stream : String) (st : PState)
    (msgs : List (String × Msg))
    (h : (msgs.all fun q => (q.2.lookup "ts").isSome) = true) :
    processMsgs stream st msgs =
      .ok ⟨st.data_buffer ++ validRowsMsgs msgs,
           buildAcks st.acks_to_send (msgs.map fun q => (stream, q.1))⟩ := by
  induction msgs generalizing st with
  | nil => simp [processMsgs, validRowsMsgs, buildAcks]
  | cons q rest ih =>
      obtain ⟨id, msg⟩ := q
      rw [List.all_cons] at h
      obtain ⟨h1, h2⟩ := Bool.and_eq_true_iff.mp h
      obtain ⟨ts, hts⟩ := Option.isSome_iff_exists.mp h1
      simp only [processMsgs, format_row_from_redis, hts]
      rw [ih _ h2]
      simp only [validRowsMsgs, List.filterMap_cons, format_row_from_redis,
        hts, List.map_cons, buildAcks_cons]
      by_cases hv : rowTimeOk (TABLE_COLUMNS.map fun col =>
          if col = "time" then
            (if pyFloatParses ts then Cell.time ts else Cell.null)
          else
            match msg.lookup col with
            | none => Cell.null
            | some v => Cell.raw v) = true
      · simp [hv, validRowsMsgs]
      · simp only [Bool.not_eq_true] at hv
        simp [hv, validRowsMsgs]

lemma processMsgs_err (stream : String) (st : PState)
    (msgs : List (String × Msg))
    (h : (msgs.all fun q => (q.2.lookup "ts").isSome) = false) :
    ∃ st', processMsgs stream st msgs = .error st' := by
  induction msgs generalizing st with
  | nil => simp [List.all_nil] at h
  | cons q rest ih =>
      obtain ⟨id, msg⟩ := q
      rw [List.all_cons, Bool.and_eq_false_iff] at h
      rcases h with h1 | h2
      · rw [Bool.eq_false_iff, Ne, Option.isSome_iff_exists] at h1
        have hnone : msg.lookup "ts" = none := by
          cases hl : msg.lookup "ts" with
          | none => rfl
          | some v => exact absurd ⟨v, hl⟩ h1
        exact ⟨st, by simp [processMsgs, format_row_from_redis, hnone]⟩
      · cases hl : msg.lookup "ts" with
        | none => exact ⟨st, by simp [processMsgs, format_row_from_redis, hl]⟩
        | some ts =>
            obtain ⟨st', hst'⟩ := ih
              { data_buffer :=
                  if rowTimeOk (TABLE_COLUMNS.map fun col =>
                      if col = "time" then
                        (if pyFloatParses ts then Cell.time ts else Cell.null)
                      else
                        match msg.lookup col with
                        | none => Cell.null
                        | some v => Cell.raw v)
                  then st.data_buffer ++ [TABLE_COLUMNS.map fun col =>
                      if col = "time" then
                        (if pyFloatParses ts then Cell.time ts else Cell.null)
                      else
                        match msg.lookup col with
                        | none => Cell.null
                        | some v => Cell.raw v]
                  else st.data_buffer,
                acks_to_send := appendAck st.acks_to_send stream id } h2
            exact ⟨st', by simp [processMsgs, format_row_from_redis, hl, hst']⟩

lemma processStreams_ok (st : PState) (resp : Response)
    (h : allHaveTs resp = true) :
    processStreams st resp =
      .ok ⟨st.data_buffer ++ validRows resp,
           buildAcks st.acks_to_send (respPairs resp)⟩ := by
  induction resp generalizing st with
  | nil => simp [processStreams, validRows, respPairs, buildAcks]
  | cons p rest ih =>
      obtain ⟨stream, msgs⟩ := p
      rw [allHaveTs, List.all_cons] at h
      obtain ⟨h1, h2⟩ := Bool.and_eq_true_iff.mp h
      simp only [processStreams, processMsgs_ok stream st msgs h1]
      rw [ih _ h2]
      simp [validRows, respPairs, buildAcks_append, List.append_assoc]

lemma processStreams_err (st : PState) (resp : Response)
    (h : allHaveTs resp = false) :
    ∃ st', processStreams st resp = .error st' := by
  induction resp generalizing st with
  | nil => simp [allHaveTs] at h
  | cons p rest ih =>
      obtain ⟨stream, msgs⟩ := p
      rw [allHaveTs, List.all_cons, Bool.and_eq_false_iff] at h
      rcases h with h1 | h2
      · obtain ⟨st', hst'⟩ := processMsgs_err stream st msgs h1
        exact ⟨st', by simp [processStreams, hst']⟩
      · cases hm : processMsgs stream st msgs with
        | error st' => exact ⟨st', by simp [processStreams, hm]⟩
        | ok st' =>
            obtain ⟨st'', hst''⟩ := ih st' h2
            exact ⟨st'', by simp [processStreams, hm, hst'']⟩

lemma length_pos_not_isEmpty (l : List Row) (h : BATCH_SIZE ≤ l.length) :
    l.isEmpty = false := by
  cases l with
  | nil => simp [BATCH_SIZE] at h
  | cons a t => rfl

/-- Characterization of the acks actually sent in one cycle: exactly the
ids of the current response, and only when every entry mapped without a
KeyError, the post-mapping buffer reached BATCH_SIZE, and the flush
succeeded. -/
lemma acksSent_eq (st : PState) (resp : Response) (dbOk : Bool) :
    (runCycle st resp dbOk).acksSent =
      if resp.isEmpty then []
      else if allHaveTs resp then
        if BATCH_SIZE ≤ st.data_buffer.length + (validRows resp).length
            ∧ dbOk = true
        then buildAcks [] (respPairs resp) else []
      else [] := by
  cases hresp : resp.isEmpty with
  | true => simp [runCycle, hresp]
  | false =>
      cases hts : allHaveTs resp with
      | false =>
          obtain ⟨st', hst'⟩ := processStreams_err ⟨st.data_buffer, []⟩ resp hts
          simp [runCycle, hresp, hst']
      | true =>
          have hok := processStreams_ok ⟨st.data_buffer, []⟩ resp hts
          by_cases hlen : BATCH_SIZE ≤
              st.data_buffer.length + (validRows resp).length
          · have hne : (st.data_buffer ++ validRows resp).isEmpty = false :=
              length_pos_not_isEmpty _ (by simpa using hlen)
            cases hdb : dbOk with
            | true =>
                simp [runCycle, hresp, hok, flush_buffer_to_db, hne, hlen]
            | false =>
                simp [runCycle, hresp, hok, flush_buffer_to_db, hne, hlen]
          · simp [runCycle, hresp, hok, hlen]

/-- Characterization of the flush result observed in one cycle. -/
lemma flushResult_eq (st : PState) (resp : Response) (dbOk : Bool) :
    (runCycle st resp dbOk).flushResult =
      if resp.isEmpty then some (flush_buffer_to_db st.data_buffer dbOk).ok
      else if allHaveTs resp then
        if BATCH_SIZE ≤ st.data_buffer.length + (validRows resp).length
        then some dbOk else none
      else none := by
  cases hresp : resp.isEmpty with
  | true => simp [runCycle, hresp]
  | false =>
      cases hts : allHaveTs resp with
      | false =>
          obtain ⟨st', hst'⟩ := processStreams_err ⟨st.data_buffer, []⟩ resp hts
          simp [runCycle, hresp, hst']
      | true =>
          have hok := processStreams_ok ⟨st.data_buffer, []⟩ resp hts
          by_cases hlen : BATCH_SIZE ≤
              st.data_buffer.length + (validRows resp).length
          · have hne : (st.data_buffer ++ validRows resp).isEmpty = false :=
              length_pos_not_isEmpty _ (by simpa using hlen)
            cases hdb : dbOk with
            | true =>
                simp [runCycle, hresp, hok, flush_buffer_to_db, hne, hlen]
            | false =>
                simp [runCycle, hresp, hok, flush_buffer_to_db, hne, hlen]
          · simp [runCycle, hresp, hok, hlen]

/-- C1: in every pipeline cycle, xack is issued for the ids read in that
cycle only after flush_buffer_to_db has returned success in that same
cycle; in a cycle whose flush failed or was never invoked, no entry id is
acknowledged. -/
theorem C1_ack_only_after_successful_flush (st : PState) (resp : Response)
    (dbOk : Bool)
    (h : (runCycle st resp dbOk).flushResult ≠ some true) :
    (runCycle st resp dbOk).acksSent = [] := by
  rw [acksSent_eq]
  rw [flushResult_eq] at h
  by_cases hresp : resp.isEmpty
  · simp [hresp]
  · by_cases hts : allHaveTs resp
    · by_cases hlen : BATCH_SIZE ≤
          st.data_buffer.length + (validRows resp).length
      · cases hdb : dbOk with
        | true => simp [hresp, hts, hlen, hdb] at h
        | false => simp [hresp, hts, hlen, hdb]
      · simp [hresp, hts, hlen]
    · simp [hresp, hts]

/-- Witness for C1: a concrete cycle that reads one entry, stays below the
batch threshold, performs no flush, and acknowledges nothing. -/
theorem C1_ack_only_after_successful_flush_witness :
    (runCycle ⟨[], []⟩
        [("pmu_data_stream:1", [("1-1", [("ts", "1700000000.5"),
          ("pmu_id", "1")])])] true).flushResult ≠ some true ∧
    (runCycle ⟨[], []⟩
        [("pmu_data_stream:1", [("1-1", [("ts", "1700000000.5"),
          ("pmu_id", "1")])])] true).acksSent = [] := by
  refine ⟨?_, C1_ack_only_after_successful_flush _ _ _ ?_⟩ <;> decide

/-- C2 (amended): the acks sent in a cycle are exactly the ids of that
same cycle's response, and only when no mapper KeyError occurred, the
post-mapping buffer reached BATCH_SIZE, and the flush succeeded. In
particular the timeout-path residual flush acknowledges nothing, and ids
recorded in an earlier cycle are never acknowledged later, because
acks_to_send is rebuilt from the current response alone. -/
theorem C2_amended_acks_exactly_current_response (st : PState)
    (resp : Response) (dbOk : Bool) :
    (runCycle st resp dbOk).acksSent =
      if resp.isEmpty then []
      else if allHaveTs resp then
        if BATCH_SIZE ≤ st.data_buffer.length + (validRows resp).length
            ∧ dbOk = true
        then buildAcks [] (respPairs resp) else []
      else [] :=
  acksSent_eq st resp dbOk

/-- C2 counterexample: a concrete two-cycle run. Cycle one reads entry 1-1
(valid timestamp, below the batch threshold: no flush, no ack); cycle two
times out and the residual flush commits the row successfully, yet the ack
lists of both cycles are empty — an entry whose row was committed by a
successful flush is never acknowledged. -/
theorem C2_counterexample :
    (runTrace ⟨[], []⟩
        [([("pmu_data_stream:1", [("1-1", [("ts", "1700000000.5"),
            ("pmu_id", "1")])])], true), ([], true)]).2.2 ≠ [] ∧
    (runTrace ⟨[], []⟩
        [([("pmu_data_stream:1", [("1-1", [("ts", "1700000000.5"),
            ("pmu_id", "1")])])], true), ([], true)]).2.1 = [[], []] := by
  constructor <;> decide

/-- C3: flush_buffer_to_db on the empty buffer returns True without
touching the database; on a failed insert or commit it returns False with
the buffer byte-for-byte intact and nothing committed, so the identical
buffer is retried next cycle; on success it commits the whole buffer and
clears it. -/
theorem C3_flush_contract (buf : List Row) (dbOk : Bool) :
    flush_buffer_to_db [] dbOk = ⟨[], true, [], false⟩ ∧
    (buf ≠ [] → dbOk = false →
      flush_buffer_to_db buf dbOk = ⟨buf, false, [], true⟩) ∧
    (buf ≠ [] → dbOk = true →
      flush_buffer_to_db buf dbOk = ⟨[], true, buf, true⟩) := by
  refine ⟨rfl, ?_, ?_⟩ <;>
    · intro hne hdb
      subst hdb
      cases buf with
      | nil => exact absurd rfl hne
      | cons a t => rfl

/-- Witness for C3: the contract applied to a concrete one-row buffer for
both the failing and the succeeding flush. -/
theorem C3_flush_contract_witness :
    ([sampleRow] ≠ ([] : List Row)) ∧
    flush_buffer_to_db [sampleRow] false = ⟨[sampleRow], false, [], true⟩ ∧
    flush_buffer_to_db [sampleRow] true = ⟨[], true, [sampleRow], true⟩ :=
  ⟨by simp, (C3_flush_contract [sampleRow] false).2.1 (by simp) rfl,
    (C3_flush_contract [sampleRow] true).2.2 (by simp) rfl⟩

/-- C4 (amended): an empty read with a non-empty buffer triggers a flush in
that cycle even below the batch threshold, and the buffer is empty
immediately afterwards exactly when the flush succeeded; on a failed flush
the buffer is retained for retry. -/
theorem C4_amended_timeout_flush (st : PState) (dbOk : Bool)
    (h : st.data_buffer ≠ []) :
    (runCycle st [] dbOk).flushCalled = true ∧
    ((runCycle st [] dbOk).state.data_buffer = [] ↔ dbOk = true) := by
  cases hb : st.data_buffer with
  | nil => exact absurd hb h
  | cons a t =>
      cases dbOk with
      | true => simp [runCycle, flush_buffer_to_db, hb]
      | false => simp [runCycle, flush_buffer_to_db, hb]

/-- Witness for C4: the concrete timeout cycle with one buffered row and a
healthy database. -/
theorem C4_amended_timeout_flush_witness :
    ((⟨[sampleRow], []⟩ : PState).data_buffer ≠ []) ∧
    (runCycle ⟨[sampleRow], []⟩ [] true).flushCalled = true ∧
    ((runCycle ⟨[sampleRow], []⟩ [] true).state.data_buffer = [] ↔
        true = true) :=
  ⟨by simp, (C4_amended_timeout_flush ⟨[sampleRow], []⟩ true (by simp)).1,
    (C4_amended_timeout_flush ⟨[sampleRow], []⟩ true (by simp)).2⟩

/-- C4 counterexample: a timeout cycle with one buffered row whose flush
fails — the flush is triggered, but the buffer is NOT empty afterwards,
refuting the unconditional claim. -/
theorem C4_counterexample :
    (runCycle ⟨[sampleRow], []⟩ [] false).flushCalled = true ∧
    (runCycle ⟨[sampleRow], []⟩ [] false).state.data_buffer = [sampleRow] := by
  constructor <;> decide

/-- The round-trip entry of the specification, with string field values as
delivered by Redis with decode_responses=True. -/
def c6_entry : Msg :=
  [("ts", "1700000000.5"), ("source", "7"), ("freq", "60.01"),
   ("phasor_0_mag", "1.02"), ("phasor_0_ang_deg", "12.5")]

/-- C6 counterexample: mapping the specification's round-trip entry puts
None — not 7 — in the source-id column (position 1, pmu_id): the mapper
looks every column up by its destination name, and the entry carries the
value under the key source, which is not a column name. -/
theorem C6_counterexample :
    (match format_row_from_redis c6_entry with
     | .ok row => row.get? 1
     | .error _ => none) = some Cell.null ∧
    Cell.null ≠ Cell.raw "7" := by
  constructor <;> decide

/-- C6 (amended): the round-trip entry maps to exactly one row whose time
cell derives from 1700000000.5, whose freq, phasor_0_mag and
phasor_0_ang_deg cells carry the same-named field values, and whose every
other of the 39 columns — including the source-id column pmu_id, since the
entry's field is named source — is null. -/
theorem C6_amended_roundtrip_row :
    format_row_from_redis c6_entry =
      .ok ([Cell.time "1700000000.5", Cell.null, Cell.null,
            Cell.raw "60.01", Cell.null, Cell.raw "1.02",
            Cell.raw "12.5"] ++ List.replicate 32 Cell.null) := by
  rfl

/-- C7: the TABLE_COLUMNS list that shapes every mapped row tuple and
builds the INSERT statement matches, name for name and position for
position, the declared column order of the destination table phasor_data:
time, pmu id, status word, freq, rocof, twelve magnitude/angle phasor
pairs, eight analog channels, two digital channels. -/
theorem C7_column_order_matches_ddl :
    TABLE_COLUMNS = phasor_data_ddl_columns := by decide

/-- C8 (amended): an entry whose ts field is PRESENT but non-numeric maps
to a row with a null time cell that is excluded from the buffer, while its
id is still recorded in acks_to_send and acknowledged once its batch's
flush of the remaining valid rows succeeds. (An entry whose ts field is
MISSING instead raises an uncaught KeyError that aborts the cycle — see
the counterexample.) -/
theorem C8_amended_unparseable_ts (st : PState) (stream id : String)
    (msg : Msg) (ts : String) (dbOk : Bool)
    (h1 : msg.lookup "ts" = some ts) (h2 : pyFloatParses ts = false) :
    (runCycle st [(stream, [(id, msg)])] dbOk).errored = false ∧
    validRowsMsgs [(id, msg)] = [] ∧
    (runCycle st [(stream, [(id, msg)])] dbOk).state.acks_to_send
      = [(stream, [id])] ∧
    (BATCH_SIZE ≤ st.data_buffer.length → dbOk = true →
      (runCycle st [(stream, [(id, msg)])] dbOk).acksSent
        = [(stream, [id])]) := by
  have hts : allHaveTs [(stream, [(id, msg)])] = true := by
    simp [allHaveTs, h1]
  have hrow : validRowsMsgs [(id, msg)] = [] := by
    simp [validRowsMsgs, format_row_from_redis, h1, rowTimeOk, h2,
      TABLE_COLUMNS]
  have hok := processStreams_ok ⟨st.data_buffer, []⟩ [(stream, [(id, msg)])] hts
  have hvr : validRows [(stream, [(id, msg)])] = [] := by
    simp [validRows, hrow]
  rw [hvr, List.append_nil] at hok
  have hacks : buildAcks ([] : AckMap) (respPairs [(stream, [(id, msg)])])
      = [(stream, [id])] := by
    simp [respPairs, buildAcks, appendAck]
  rw [hacks] at hok
  refine ⟨?_, hrow, ?_, ?_⟩
  · by_cases hlen : BATCH_SIZE ≤ st.data_buffer.length
    · have hne : st.data_buffer.isEmpty = false :=
        length_pos_not_isEmpty _ hlen
      cases dbOk <;>
        simp [runCycle, hok, hlen, flush_buffer_to_db, hne]
    · simp [runCycle, hok, hlen]
  · by_cases hlen : BATCH_SIZE ≤ st.data_buffer.length
    · have hne : st.data_buffer.isEmpty = false :=
        length_pos_not_isEmpty _ hlen
      cases dbOk <;>
        simp [runCycle, hok, hlen, flush_buffer_to_db, hne]
    · simp [runCycle, hok, hlen]
  · intro hlen hdb
    subst hdb
    have hne : st.data_buffer.isEmpty = false :=
      length_pos_not_isEmpty _ hlen
    simp [runCycle, hok, hlen, flush_buffer_to_db, hne]

/-- Witness for C8: a full buffer of 500 rows, one entry with the
non-numeric timestamp abc, and a healthy database: the entry's id is
acknowledged by the successful flush of the remaining valid rows. -/
theorem C8_amended_unparseable_ts_witness :
    (([("ts", "abc")] : Msg).lookup "ts" = some "abc") ∧
    pyFloatParses "abc" = false ∧
    (runCycle ⟨List.replicate BATCH_SIZE sampleRow, []⟩
        [("pmu_data_stream:1", [("1-1", [("ts", "abc")])])] true).acksSent
      = [("pmu_data_stream:1", ["1-1"])] :=
  ⟨rfl, by decide,
    (C8_amended_unparseable_ts ⟨List.replicate BATCH_SIZE sampleRow, []⟩
        "pmu_data_stream:1" "1-1" [("ts", "abc")] "abc" true rfl
        (by decide)).2.2.2 (by simp) rfl⟩

/-- C8 counterexample: an entry with NO ts field raises a KeyError that the
mapper does not catch; the cycle aborts in the outer exception handler with
the entry's id recorded nowhere — it is neither buffered nor queued for
acknowledgment, refuting the missing-timestamp half of the claim. -/
theorem C8_counterexample :
    (runCycle ⟨[], []⟩ [("pmu_data_stream:1", [("1-1", ([] : Msg))])]
        true).errored = true ∧
    (runCycle ⟨[], []⟩ [("pmu_data_stream:1", [("1-1", ([] : Msg))])]
        true).state.acks_to_send = [] ∧
    (runCycle ⟨[], []⟩ [("pmu_data_stream:1", [("1-1", ([] : Msg))])]
        true).acksSent = [] := by
  refine ⟨?_, ?_, ?_⟩ <;> decide

/-- C10: register_pmu never propagates an exception — its whole body is
guarded by except Exception — and because the INSERT's parameters evaluate
the name datetime, which database.py never imports (its module names hold
no such binding and it is not a Python builtin), every call with a live
connection raises NameError into that handler, so no registry row is ever
inserted by this function. -/
theorem C10_register_pmu_never_raises_never_inserts (connectOk : Bool)
    (pmuId : Nat) :
    (register_pmu connectOk pmuId).raised = false ∧
    (register_pmu connectOk pmuId).inserted = false := by
  cases connectOk <;> exact ⟨rfl, rfl⟩

lemma setupLoop_ok (gc : String → XGroupResult) (streams : List String)
    (h : ∀ s ∈ streams, ∀ e, gc s ≠ .err e) :
    setupLoop gc streams = .ok (streams.map fun s => (s, ">")) := by
  induction streams with
  | nil => rfl
  | cons s rest ih =>
      have hrest : ∀ t ∈ rest, ∀ e, gc t ≠ .err e := by
        intro t ht e
        exact h t (List.mem_cons_of_mem s ht) e
      cases hgc : gc s with
      | err e => exact absurd hgc (h s (List.mem_cons_self s rest) e)
      | created => simp [setupLoop, hgc, ih hrest]
      | alreadyExists => simp [setupLoop, hgc, ih hrest]

lemma setupLoop_err (gc : String → XGroupResult) (streams : List String)
    (s : String) (e : String) (hs : s ∈ streams) (hgc : gc s = .err e) :
    ∃ msg, setupLoop gc streams = .error msg := by
  induction streams with
  | nil => exact absurd hs (List.not_mem_nil s)
  | cons t rest ih =>
      cases hgt : gc t with
      | err m => exact ⟨m, by simp [setupLoop, hgt]⟩
      | created =>
          have hmem : s ∈ rest := by
            rcases List.mem_cons.mp hs with h1 | h1
            · subst h1; rw [hgc] at hgt; exact absurd hgt (by simp)
            · exact h1
          obtain ⟨m, hm⟩ := ih hmem
          exact ⟨m, by simp [setupLoop, hgt, hm]⟩
      | alreadyExists =>
          have hmem : s ∈ rest := by
            rcases List.mem_cons.mp hs with h1 | h1
            · subst h1; rw [hgc] at hgt; exact absurd hgt (by simp)
            · exact h1
          obtain ⟨m, hm⟩ := ih hmem
          exact ⟨m, by simp [setupLoop, hgt, hm]⟩

/-- C5 (amended): when group creation raises nothing but the expected
already-exists response, every discovered stream is set up and returned;
but a single group-create failure on ANY stream aborts the whole discovery
run in the outer exception handler — discover returns the empty mapping,
so no stream (not just the failed one) is listened to until the next
discovery cycle retries them all. Only the registry step (pmu-id parse and
register_pmu) is isolated per source. -/
theorem C5_amended_discovery_abort (streams : List String)
    (gc : String → XGroupResult) :
    ((∀ s ∈ streams, ∀ e, gc s ≠ .err e) →
      discover_and_setup_groups streams gc = streams.map fun s => (s, ">")) ∧
    (∀ s e, s ∈ streams → gc s = .err e →
      discover_and_setup_groups streams gc = []) := by
  constructor
  · intro h
    cases streams with
    | nil => rfl
    | cons t rest =>
        simp [discover_and_setup_groups, setupLoop_ok gc (t :: rest) h]
  · intro s e hs hgc
    obtain ⟨m, hm⟩ := setupLoop_err gc streams s e hs hgc
    cases streams with
    | nil => rfl
    | cons t rest => simp [discover_and_setup_groups, hm]

/-- Witness for C5: two streams whose group creation succeeds (one fresh,
one already existing) are both returned. -/
theorem C5_amended_discovery_abort_witness :
    (∀ s ∈ ["pmu_data_stream:1", "pmu_data_stream:2"], ∀ e,
      (fun t => if t = "pmu_data_stream:1" then XGroupResult.created
                else XGroupResult.alreadyExists) s ≠ .err e) ∧
    discover_and_setup_groups ["pmu_data_stream:1", "pmu_data_stream:2"]
        (fun t => if t = "pmu_data_stream:1" then XGroupResult.created
                  else XGroupResult.alreadyExists)
      = [("pmu_data_stream:1", ">"), ("pmu_data_stream:2", ">")] := by
  have h : ∀ s ∈ ["pmu_data_stream:1", "pmu_data_stream:2"], ∀ e,
      (fun t => if t = "pmu_data_stream:1" then XGroupResult.created
                else XGroupResult.alreadyExists) s ≠ .err e := by
    intro s _ e
    by_cases hs : s = "pmu_data_stream:1" <;> simp [hs]
  exact ⟨h, (C5_amended_discovery_abort _ _).1 h⟩

/-- C5 counterexample: group creation fails on stream 1 and would succeed
on stream 2, yet discover returns the empty mapping — stream 2 is dropped
too, refuting per-source isolation of group-create failures. -/
theorem C5_counterexample :
    (fun t => if t = "pmu_data_stream:1"
              then XGroupResult.err "ERR failure"
              else XGroupResult.created) "pmu_data_stream:2"
      = XGroupResult.created ∧
    discover_and_setup_groups ["pmu_data_stream:1", "pmu_data_stream:2"]
        (fun t => if t = "pmu_data_stream:1"
                  then XGroupResult.err "ERR failure"
                  else XGroupResult.created) = [] := by
  constructor <;> decide

lemma streamStatusStep_snd (db : RedisDB) (s : String) :
    (streamStatusStep db s).2 = db := rfl

lemma fold_status (names : List String) (db : RedisDB)
    (acc : List (String × StreamStatus)) :
    names.foldl
      (fun acc stream =>
        let s := streamStatusStep acc.2 stream
        (acc.1 ++ [(stream, s.1)], s.2))
      (acc, db)
    = (acc ++ names.map (fun s => (s, (streamStatusStep db s).1)), db) := by
  induction names generalizing acc with
  | nil => simp
  | cons n rest ih =>
      rw [List.foldl_cons]
      have h2 := ih (acc ++ [(n, (streamStatusStep db n).1)])
      rw [List.append_assoc] at h2
      exact h2

lemma lookup_mem_keys (db : RedisDB) (s : String) (gs : List GroupInfo)
    (h : db.lookup s = some gs) : s ∈ db.map Prod.fst := by
  induction db with
  | nil => simp [List.lookup] at h
  | cons p rest ih =>
      obtain ⟨k, v⟩ := p
      by_cases hk : s = k
      · simp [hk]
      · rw [List.lookup_cons] at h
        have hbeq : (s == k) = false := beq_false_of_ne hk
        rw [hbeq] at h
        simp only [List.map_cons, List.mem_cons]
        exact Or.inr (ih h)

lemma lookup_map_self (names : List String) (f : String → StreamStatus)
    (s : String) (h : s ∈ names) :
    (names.map fun x => (x, f x)).lookup s = some (f s) := by
  induction names with
  | nil => exact absurd h (List.not_mem_nil s)
  | cons n rest ih =>
      by_cases hn : s = n
      · subst hn
        simp [List.lookup_cons]
      · have hbeq : (s == n) = false := beq_false_of_ne hn
        rcases List.mem_cons.mp h with h1 | h1
        · exact absurd h1 hn
        · simp [List.lookup_cons, hbeq, ih h1]

/-- C9: get_persistor_status leaves the Redis state untouched, and for
every stream key matching the pmu pattern it reports — straight from the
consumer-group metadata returned by XINFO GROUPS — lag, pending-message
count and active-consumer count when the persistor group exists, and the
awaiting status (rather than raising) when it does not. -/
theorem C9_persistor_status_reads_group_metadata (db : RedisDB)
    (stream : String) (gs : List GroupInfo) :
    (get_persistor_status db).2 = db ∧
    (db.lookup stream = some gs → matchesStreamPattern stream = true →
      ∃ m, (get_persistor_status db).1 = .perStream m ∧
        m.lookup stream = some
          (match gs.find? (fun g => g.name == PERSISTOR_GROUP_NAME) with
           | some g => StreamStatus.monitorado g.lag g.pending g.consumers
           | none => StreamStatus.aguardando)) := by
  constructor
  · by_cases hks : ((db.map Prod.fst).filter matchesStreamPattern).isEmpty
      = true
    · simp [get_persistor_status, keysCmd, hks]
    · simp only [Bool.not_eq_true] at hks
      simp [get_persistor_status, keysCmd, hks, fold_status]
  · intro hlk hpat
    have hmem : stream ∈ (db.map Prod.fst).filter matchesStreamPattern :=
      List.mem_filter.mpr ⟨lookup_mem_keys db stream gs hlk, hpat⟩
    have hne : ((db.map Prod.fst).filter matchesStreamPattern).isEmpty
        = false := by
      cases hl : (db.map Prod.fst).filter matchesStreamPattern with
      | nil => rw [hl] at hmem; exact absurd hmem (List.not_mem_nil stream)
      | cons a t => rfl
    refine ⟨((db.map Prod.fst).filter matchesStreamPattern).map
      fun s => (s, (streamStatusStep db s).1), ?_, ?_⟩
    · simp [get_persistor_status, keysCmd, hne, fold_status]
    · rw [lookup_map_self _ _ _ hmem]
      simp [streamStatusStep, xinfoGroupsCmd, hlk]

/-- Witness for C9: one stream whose persistor group reports lag 7, three
pending entries and one consumer, read back verbatim from the metadata. -/
theorem C9_persistor_status_reads_group_metadata_witness :
    (([("pmu_data_stream:1",
        [GroupInfo.mk "persistor_group" 7 3 1])] : RedisDB).lookup
          "pmu_data_stream:1"
      = some [GroupInfo.mk "persistor_group" 7 3 1]) ∧
    matchesStreamPattern "pmu_data_stream:1" = true ∧
    (∃ m, (get_persistor_status
        [("pmu_data_stream:1",
          [GroupInfo.mk "persistor_group" 7 3 1])]).1 = .perStream m ∧
      m.lookup "pmu_data_stream:1" = some
        (match ([GroupInfo.mk "persistor_group" 7 3 1]).find?
            (fun g => g.name == PERSISTOR_GROUP_NAME) with
         | some g => StreamStatus.monitorado g.lag g.pending g.consumers
         | none => StreamStatus.aguardando)) :=
  ⟨by decide, by decide,
    (C9_persistor_status_reads_group_metadata
        [("pmu_data_stream:1", [GroupInfo.mk "persistor_group" 7 3 1])]
        "pmu_data_stream:1"
        [GroupInfo.mk "persistor_group" 7 3 1]).2 (by decide) (by decide)⟩

end SmartPhasor
